import Mathlib

/-!
Shallow embedding of the Sedna narrative flow engine (src/sedna.js) and
verification of its specification claims.

The engine is single-threaded and cooperatively suspending, so every
`await` in the source is modelled by plain sequential composition.  Each
run is modelled as a fuel-indexed interpreter producing a trace of
observable events (scene invocations, hook firings, renderer calls) plus
an outcome (settled at rest, escalated with a raised error, or out of
fuel).  Author-supplied scene logic is external code from the engine's
point of view; the engine only inspects the value a scene resolves to, so
a registered scene is modelled by that resolved value.
-/

set_option maxHeartbeats 1000000

/-- JavaScript runtime values, as far as the engine inspects them:
`undefined`, `null`, strings, numbers (integer fragment; the engine only
tests truthiness), booleans, plain objects (ordered string-keyed records),
and functions (identified by an opaque tag; the engine never inspects a
function's body, only calls it). -/
inductive JSValue where
  | undef : JSValue
  | jsNull : JSValue
  | str : String → JSValue
  | num : Int → JSValue
  | bool : Bool → JSValue
  | obj : List (String × JSValue) → JSValue
  | fn : Nat → JSValue

/-- JavaScript truthiness: `undefined`, `null`, `""`, `0` and `false` are
falsy; every object and function is truthy. -/
def truthy : JSValue → Bool
  | JSValue.undef => false
  | JSValue.jsNull => false
  | JSValue.str s => ! (s == "")
  | JSValue.num n => ! (n == 0)
  | JSValue.bool b => b
  | JSValue.obj _ => true
  | JSValue.fn _ => true

/-- The test `typeof v === "string"` of the source. -/
def isString : JSValue → Bool
  | JSValue.str _ => true
  | _ => false

/-- The string payload of a string value (the engine only extracts it
after an `isString` test). -/
def asString : JSValue → String
  | JSValue.str s => s
  | _ => ""

/-- The loose test `v == undefined` of JavaScript: true exactly for
`undefined` and `null`. The source's `returnValue != undefined` is the
negation of this. -/
def isNullish : JSValue → Bool
  | JSValue.undef => true
  | JSValue.jsNull => true
  | _ => false

/-- The test `typeof v === "function"` of the source. -/
def isFunction : JSValue → Bool
  | JSValue.fn _ => true
  | _ => false

/-- Tag of a function value (used to record which author callback ran). -/
def fnTag : JSValue → Nat
  | JSValue.fn t => t
  | _ => 0

/-- Property read `v[k]`: on an object, the entry at key `k` or
`undefined` when absent; on any non-object primitive the engine only ever
reads missing properties, which yield `undefined`. -/
def getProp (v : JSValue) (k : String) : JSValue :=
  match v with
  | JSValue.obj entries =>
    match entries.find? (fun p => p.1 == k) with
    | some p => p.2
    | none => JSValue.undef
  | _ => JSValue.undef

/-- In-place property removal `delete v[k]` (sedna.js line 251): on an
object the entry at key `k` is removed, every other entry is kept in
order; on a non-object the statement is a no-op.  JavaScript mutates the
object in place, so after `menu` returns the caller's aliased descriptor
object equals this value. -/
def deleteProp (v : JSValue) (k : String) : JSValue :=
  match v with
  | JSValue.obj entries => JSValue.obj (entries.filter (fun p => ! (p.1 == k)))
  | _ => v

/-- Key list of an object value (`Object.keys`); empty for non-objects. -/
def objKeys : JSValue → List String
  | JSValue.obj entries => entries.map Prod.fst
  | _ => []

/-- String conversion used by the template literal in the source's menu
error message. -/
def jsToString : JSValue → String
  | JSValue.undef => "undefined"
  | JSValue.jsNull => "null"
  | JSValue.str s => s
  | JSValue.num n => toString n
  | JSValue.bool b => if b then "true" else "false"
  | JSValue.obj _ => "[object Object]"
  | JSValue.fn _ => "function"

/-- Observable events of a run, in order of occurrence. -/
inductive Event where
  | sceneInvoked : String → Event
  | sceneChanged : Event
  | finished : Event
  | errorCalled : String → Event
  | menuShown : List String → Event
  | fnCalled : Nat → Event
  deriving DecidableEq, Repr

/-- Outcome of a run: settled at rest, rejected with a raised error
message, or interpreter fuel exhausted (the JS recursion is unbounded; a
run that needs more fuel is simply not modelled at that fuel). -/
inductive Outcome where
  | ok : Outcome
  | thrown : String → Outcome
  | outOfFuel : Outcome
  deriving DecidableEq, Repr

/-- The story's error hook `this.onError` (sedna.js line 220): either the
default handler `(err) => { throw new Error(err) }`, or an
author-supplied hook, modelled by which messages it re-raises on (a
swallowing hook records the call and returns). -/
inductive ErrorHandler where
  | default : ErrorHandler
  | custom : (String → Bool) → ErrorHandler

/-- Constructor line 220, `config.onError || defaultErrHandler`: a story
constructed without an onError hook gets the default (escalating)
handler. -/
def configOnError : Option ErrorHandler → ErrorHandler
  | some handler => handler
  | none => ErrorHandler.default

/-- The Sedna story instance, restricted to the state the flow controller
reads: the scene registry (a registered scene's logic is modelled by the
value it resolves to), the renderer's optional `onMenu` capability
(modelled by the value it resolves to as a function of the visible
options it is shown), presence of the two lifecycle callbacks, and the
error hook. -/
structure Sedna where
  scenes : String → Option JSValue
  onMenu : Option (JSValue → JSValue)
  onSceneChange : Bool
  onFinish : Bool
  onError : ErrorHandler

/-- Error message raised for a missing scene (sedna.js line 280). -/
def missingSceneMsg (id : String) : String :=
  "Scene \"" ++ id ++ "\" does not exist."

/-- Error message raised for an invalid menu result (sedna.js line 261). -/
def invalidMenuMsg (v : JSValue) : String :=
  "Unknown type returned by menu option: " ++ jsToString v

/-- Message of the TypeError raised by applying `undefined` when
`Sedna.call` is used on an unregistered scene id (sedna.js line 271). -/
def typeErrorMsg : String :=
  "TypeError: this.scenes[id] is not a function"

/-- Result of `Sedna.call`: the scene's resolved value, or the TypeError
thrown by applying `undefined` when the id is unregistered. -/
inductive CallResult where
  | ok : JSValue → CallResult
  | typeError : CallResult

/-- Model of `Sedna.call` (sedna.js lines 270-272):
`return await this.scenes[id]({ ...this.characterFunctions }, this.data)`.
On a registered id the scene's logic runs (recorded as a `sceneInvoked`
event) and its resolved value is returned; on an unregistered id
`this.scenes[id]` is `undefined` and applying it throws a TypeError
directly — the error hook is never consulted. -/
def Sedna.call (story : Sedna) (id : String) : List Event × CallResult :=
  match story.scenes id with
  | none => ([], CallResult.typeError)
  | some v => ([Event.sceneInvoked id], CallResult.ok v)

/-- Model of an invocation of the story's error hook `this.onError(msg)`:
the hook is always called (recorded as an `errorCalled` event); the
default handler throws `new Error(msg)`, a custom hook either re-raises
or swallows. -/
def Sedna.reportError (story : Sedna) (msg : String) : List Event × Outcome :=
  ([Event.errorCalled msg],
    match story.onError with
    | ErrorHandler.default => Outcome.thrown msg
    | ErrorHandler.custom raises =>
      if raises msg then Outcome.thrown msg else Outcome.ok)

mutual

/-- Model of `Sedna.goto` (sedna.js lines 278-294).  If the id is
unregistered the error hook is invoked and the call returns (or rejects,
if the hook raised).  Otherwise the scene runs via `this.call(id)`; a
string result fires the scene-changed hook (when present) and recursively
navigates; any other truthy result is delegated to `this.menu`; a falsy
result leaves the story at rest. -/
def Sedna.goto (story : Sedna) : Nat → String → List Event × Outcome
  | 0, _ => ([], Outcome.outOfFuel)
  | fuel + 1, id =>
    match story.scenes id with
    | none => Sedna.reportError story (missingSceneMsg id)
    | some _ =>
      let c := Sedna.call story id
      match c.2 with
      | CallResult.typeError => (c.1, Outcome.thrown typeErrorMsg)
      | CallResult.ok returnValue =>
        if isString returnValue then
          let r := Sedna.goto story fuel (asString returnValue)
          (c.1 ++ (if story.onSceneChange then [Event.sceneChanged] else []) ++ r.1, r.2)
        else if truthy returnValue then
          let r := Sedna.menu story fuel returnValue
          (c.1 ++ r.1, r.2)
        else (c.1, Outcome.ok)

/-- Model of `Sedna.menu` (sedna.js lines 249-263).  The reserved entry
`options._` is read and deleted in place; the remaining visible options
are passed to the renderer's `onMenu` (when present; recorded as a
`menuShown` event carrying the visible keys, with the resolved value
given by the renderer model applied to the visible options).  After
`onMenu` resolves, the reserved entry is awaited when it is a function
(recorded as a `fnCalled` event).  A string resolution navigates; a
present non-string resolution reports an error via the hook; a nullish
resolution leaves the story at rest. -/
def Sedna.menu (story : Sedna) : Nat → JSValue → List Event × Outcome
  | 0, _ => ([], Outcome.outOfFuel)
  | fuel + 1, options =>
    let thenOption := getProp options "_"
    let visible := deleteProp options "_"
    let m : List Event × JSValue :=
      match story.onMenu with
      | none => ([], JSValue.undef)
      | some f => ([Event.menuShown (objKeys visible)], f visible)
    let thenTr : List Event :=
      if truthy thenOption && isFunction thenOption then [Event.fnCalled (fnTag thenOption)]
      else []
    if isString m.2 then
      let r := Sedna.goto story fuel (asString m.2)
      (m.1 ++ thenTr ++ r.1, r.2)
    else if ! isNullish m.2 then
      let r := Sedna.reportError story (invalidMenuMsg m.2)
      (m.1 ++ thenTr ++ r.1, r.2)
    else (m.1 ++ thenTr, Outcome.ok)

end

/-- Model of `Sedna.start` (sedna.js lines 299-302):
`this.goto("start").then(() => onFinish?.())`.  The finished hook fires
exactly once, after the outermost navigation settles successfully; when
the navigation chain rejects, the `.then` callback never runs. -/
def Sedna.start (story : Sedna) (fuel : Nat) : List Event × Outcome :=
  let r := Sedna.goto story fuel "start"
  match r.2 with
  | Outcome.ok =>
    (r.1 ++ (if story.onFinish then [Event.finished] else []), Outcome.ok)
  | o => (r.1, o)

/-- A character object (sedna.js lines 6-20): identifier, display name
and data mapping given at construction.  The back-reference to the story
is only used to reach the renderer and is irrelevant to the claims. -/
structure SednaCharacter where
  id : String
  name : String
  data : List (String × JSValue)

/-- A speaking handle (the `functionLike` of sedna.js lines 34-41):
`say.bind(this)` captures the character object at handle-creation time,
and `.data = this.data` captures that character's data mapping at
handle-creation time as well. -/
structure CharacterHandle where
  character : SednaCharacter
  data : List (String × JSValue)

/-- Model of `SednaCharacter.asFunction` (sedna.js lines 34-41). -/
def SednaCharacter.asFunction (c : SednaCharacter) : CharacterHandle :=
  CharacterHandle.mk c c.data

/-- Model of a `say` call through a handle (sedna.js lines 47-49): the
renderer's `onMessage` receives the bound character object (`this`) and
the message; the pair passed to it is the observable attribution. -/
def CharacterHandle.say (h : CharacterHandle) (message : String) :
    SednaCharacter × String :=
  (h.character, message)

/-- The two character registries held by a story instance:
`this.characters` and `this.characterFunctions`. -/
structure CharacterRegistry where
  characters : String → Option SednaCharacter
  characterFunctions : String → Option CharacterHandle

/-- The empty registries of a fresh story. -/
def CharacterRegistry.empty : CharacterRegistry :=
  CharacterRegistry.mk (fun _ => none) (fun _ => none)

/-- Model of `Sedna.character` (sedna.js lines 239-243): a brand new
character object replaces the registry entry at `id`, and a brand new
handle obtained from it replaces the handle entry at `id`.  Previously
obtained handles are unaffected. -/
def Sedna.character (r : CharacterRegistry) (id name : String)
    (data : List (String × JSValue)) : CharacterRegistry × SednaCharacter :=
  let c : SednaCharacter := SednaCharacter.mk id name data
  (CharacterRegistry.mk
    (fun i => if i = id then some c else r.characters i)
    (fun i => if i = id then some c.asFunction else r.characterFunctions i),
   c)

/-! Concrete story instances used by witnesses and counterexamples. -/

/-- Story with the three-scene chain start → "B" → "C" → rest, both
lifecycle callbacks present, default error hook, no renderer menu. -/
def storyChain : Sedna :=
  Sedna.mk
    (fun id =>
      if id = "start" then some (JSValue.str "B")
      else if id = "B" then some (JSValue.str "C")
      else if id = "C" then some JSValue.undef
      else none)
    none true true ErrorHandler.default

/-- Story whose "start" scene resolves to nothing. -/
def storyRest : Sedna :=
  Sedna.mk (fun id => if id = "start" then some JSValue.undef else none)
    none true true ErrorHandler.default

/-- Story with no scenes at all and a swallowing custom error hook. -/
def storyEmpty : Sedna :=
  Sedna.mk (fun _ => none) none true true (ErrorHandler.custom (fun _ => false))

/-- C5: navigating to an unregistered scene id calls the error hook
exactly once with the MissingScene message and performs no navigation and
no scene invocation (the whole trace is the single hook call); the call
settles normally when the hook swallows and rejects with that same error
when the hook raises (default hook included). -/
theorem goto_missing_scene_single_error_hook_call (story : Sedna) (id : String)
    (fuel : Nat) (h : story.scenes id = none) :
    (Sedna.goto story (fuel + 1) id).1 = [Event.errorCalled (missingSceneMsg id)]
    ∧ (Sedna.goto story (fuel + 1) id).2 =
        (match story.onError with
         | ErrorHandler.default => Outcome.thrown (missingSceneMsg id)
         | ErrorHandler.custom raises =>
           if raises (missingSceneMsg id) then Outcome.thrown (missingSceneMsg id)
           else Outcome.ok) := by
  simp [Sedna.goto, Sedna.reportError, h]

theorem goto_missing_scene_single_error_hook_call_witness :
    storyEmpty.scenes "nowhere" = none
    ∧ (Sedna.goto storyEmpty 1 "nowhere").1 = [Event.errorCalled (missingSceneMsg "nowhere")]
    ∧ (Sedna.goto storyEmpty 1 "nowhere").2 = Outcome.ok := by
  refine ⟨rfl, ?_⟩
  simpa [storyEmpty] using
    goto_missing_scene_single_error_hook_call storyEmpty "nowhere" 0 rfl

/-- C6: on a story whose "start" scene resolves to nothing, `start`
navigates to the scene named "start", fires no scene-changed event, and
fires the finished hook exactly once, after the navigation settles (the
trace is exactly the scene invocation followed by the single finished
event). -/
theorem start_resting_scene_fires_finished_once (story : Sedna) (fuel : Nat)
    (h1 : story.scenes "start" = some JSValue.undef)
    (h2 : story.onFinish = true) :
    Sedna.start story (fuel + 1) =
      ([Event.sceneInvoked "start", Event.finished], Outcome.ok) := by
  simp [Sedna.start, Sedna.goto, Sedna.call, h1, h2, isString, truthy]

theorem start_resting_scene_fires_finished_once_witness :
    storyRest.scenes "start" = some JSValue.undef
    ∧ Sedna.start storyRest 1 =
        ([Event.sceneInvoked "start", Event.finished], Outcome.ok) :=
  ⟨rfl, start_resting_scene_fires_finished_once storyRest 0 rfl rfl⟩

/-- C4: for a chain of scenes start → b → c → rest, `start` produces
exactly this trace: the scene-changed hook fires exactly once per
string-valued transition (twice), each firing strictly before the next
scene's invocation, and the finished hook fires exactly once, only after
the last scene settles. -/
theorem start_chain_scene_changed_twice_finished_once (story : Sedna)
    (b c : String) (fuel : Nat)
    (h1 : story.scenes "start" = some (JSValue.str b))
    (h2 : story.scenes b = some (JSValue.str c))
    (h3 : story.scenes c = some JSValue.undef)
    (hs : story.onSceneChange = true)
    (hf : story.onFinish = true) :
    Sedna.start story (fuel + 3) =
      ([Event.sceneInvoked "start", Event.sceneChanged,
        Event.sceneInvoked b, Event.sceneChanged,
        Event.sceneInvoked c, Event.finished], Outcome.ok) := by
  simp [Sedna.start, Sedna.goto, Sedna.call, h1, h2, h3, hs, hf,
    isString, asString, truthy]

theorem start_chain_scene_changed_twice_finished_once_witness :
    storyChain.scenes "start" = some (JSValue.str "B")
    ∧ storyChain.scenes "B" = some (JSValue.str "C")
    ∧ storyChain.scenes "C" = some JSValue.undef
    ∧ Sedna.start storyChain 3 =
        ([Event.sceneInvoked "start", Event.sceneChanged,
          Event.sceneInvoked "B", Event.sceneChanged,
          Event.sceneInvoked "C", Event.finished], Outcome.ok) :=
  ⟨rfl, rfl, rfl,
    start_chain_scene_changed_twice_finished_once storyChain "B" "C" 0
      rfl rfl rfl rfl rfl⟩

/-- C10: on an unregistered scene id, `Sedna.call` throws a TypeError
directly (applying the absent registry entry) with an empty event trace —
the error hook is never invoked — whereas `Sedna.goto` on the same id
routes the failure through the error hook (its trace is exactly the hook
call with the MissingScene message). -/
theorem call_missing_scene_throws_without_hook (story : Sedna) (id : String)
    (h : story.scenes id = none) :
    Sedna.call story id = ([], CallResult.typeError)
    ∧ (∀ fuel, (Sedna.goto story (fuel + 1) id).1 =
        [Event.errorCalled (missingSceneMsg id)]) := by
  constructor
  · simp [Sedna.call, h]
  · intro fuel
    simp [Sedna.goto, Sedna.reportError, h]

theorem call_missing_scene_throws_without_hook_witness :
    storyEmpty.scenes "nowhere" = none
    ∧ Sedna.call storyEmpty "nowhere" = ([], CallResult.typeError)
    ∧ (Sedna.goto storyEmpty 1 "nowhere").1 =
        [Event.errorCalled (missingSceneMsg "nowhere")] := by
  refine ⟨rfl, ?_, ?_⟩
  · exact (call_missing_scene_throws_without_hook storyEmpty "nowhere" rfl).1
  · exact (call_missing_scene_throws_without_hook storyEmpty "nowhere" rfl).2 0

/-- Lookup in an object after in-place deletion of the reserved key is
unchanged at every other key. -/
lemma find?_filter_key_ne (es : List (String × JSValue)) (k : String)
    (hk : ¬ k = "_") :
    (es.filter (fun p => ! (p.1 == "_"))).find? (fun p => p.1 == k)
      = es.find? (fun p => p.1 == k) := by
  induction es with
  | nil => rfl
  | cons a es ih =>
    by_cases ha : a.1 = "_"
    · have h2 : ¬ ("_" = k) := fun h => hk h.symm
      simp [List.filter_cons, List.find?_cons, ha, h2, ih]
    · by_cases hak : a.1 = k
      · simp [List.filter_cons, List.find?_cons, ha, hak, hk]
      · simp [List.filter_cons, List.find?_cons, ha, hak, ih]

/-- C9: the menu call's in-place `delete options._` mutates the caller's
descriptor object: for a descriptor containing the reserved key, after
the call the reserved entry is gone from the caller's object (its key is
absent and reading it yields `undefined`) while every other key still
reads exactly as before. -/
theorem menu_mutates_caller_descriptor (es : List (String × JSValue))
    (_h : "_" ∈ objKeys (JSValue.obj es)) :
    "_" ∉ objKeys (deleteProp (JSValue.obj es) "_")
    ∧ getProp (deleteProp (JSValue.obj es) "_") "_" = JSValue.undef
    ∧ (∀ k, ¬ k = "_" →
        getProp (deleteProp (JSValue.obj es) "_") k = getProp (JSValue.obj es) k) := by
  refine ⟨?_, ?_, ?_⟩
  · simp [objKeys, deleteProp, List.mem_map, List.mem_filter]
  · have hnone : (es.filter (fun p => ! (p.1 == "_"))).find?
        (fun p => p.1 == "_") = none := by
      rw [List.find?_eq_none]
      intro x hx
      simp only [List.mem_filter] at hx
      simpa using hx.2
    simp [getProp, deleteProp, hnone]
  · intro k hk
    simp [getProp, deleteProp, find?_filter_key_ne es k hk]

theorem menu_mutates_caller_descriptor_witness :
    "_" ∈ objKeys (JSValue.obj [("Go", JSValue.str "end"), ("_", JSValue.fn 7)])
    ∧ "_" ∉ objKeys (deleteProp
        (JSValue.obj [("Go", JSValue.str "end"), ("_", JSValue.fn 7)]) "_")
    ∧ getProp (deleteProp
        (JSValue.obj [("Go", JSValue.str "end"), ("_", JSValue.fn 7)]) "_") "_"
        = JSValue.undef
    ∧ getProp (deleteProp
        (JSValue.obj [("Go", JSValue.str "end"), ("_", JSValue.fn 7)]) "_") "Go"
        = getProp (JSValue.obj [("Go", JSValue.str "end"), ("_", JSValue.fn 7)]) "Go" := by
  have h := menu_mutates_caller_descriptor
    [("Go", JSValue.str "end"), ("_", JSValue.fn 7)] (by simp [objKeys])
  exact ⟨by simp [objKeys], h.1, h.2.1, h.2.2 "Go" (by simp)⟩

/-- Test distinguishing error-hook invocations among the events. -/
def isErrorEvent : Event → Bool
  | Event.errorCalled _ => true
  | _ => false

/-- Story whose scene "s" resolves to the number 5, scene "z" to the
boolean false, and scene "e" to the empty string; default error hook. -/
def storyNonString : Sedna :=
  Sedna.mk
    (fun id =>
      if id = "s" then some (JSValue.num 5)
      else if id = "z" then some (JSValue.bool false)
      else if id = "e" then some (JSValue.str "")
      else none)
    none true true ErrorHandler.default

/-- C2 counterexample: `goto` never reports an InvalidSceneResult error.
A scene resolving to the number 5 (truthy, not a string, not a menu the
renderer can use — the renderer here has no onMenu) produces no
error-hook call whatsoever and settles normally; and a scene resolving to
the empty string is treated as a string scene identifier (scene-changed
fires and navigation proceeds to the scene named "", reporting
MissingScene — not InvalidSceneResult). -/
theorem goto_no_invalid_scene_error_counterexample :
    Sedna.goto storyNonString 2 "s" = ([Event.sceneInvoked "s"], Outcome.ok)
    ∧ (Sedna.goto storyNonString 2 "s").1.countP isErrorEvent = 0
    ∧ Sedna.goto storyNonString 2 "e" =
        ([Event.sceneInvoked "e", Event.sceneChanged,
          Event.errorCalled (missingSceneMsg "")],
         Outcome.thrown (missingSceneMsg "")) :=
  ⟨rfl, rfl, rfl⟩

/-- C2 amended: a registered scene resolving to a value that is neither a
string nor a menu descriptor triggers no InvalidSceneResult error report;
instead, a truthy non-string value is delegated to menu resolution as a
possible menu descriptor, and a falsy non-string value ends navigation at
rest with no error-hook call (the trace is exactly the scene invocation;
the empty string, being a string, is instead treated as a scene
identifier). -/
theorem goto_nonstring_result_dispatch (story : Sedna) (id : String)
    (v : JSValue) (fuel : Nat)
    (hs : story.scenes id = some v) (hstr : isString v = false) :
    (truthy v = true →
      Sedna.goto story (fuel + 1) id =
        (Event.sceneInvoked id :: (Sedna.menu story fuel v).1,
         (Sedna.menu story fuel v).2))
    ∧ (truthy v = false →
      Sedna.goto story (fuel + 1) id = ([Event.sceneInvoked id], Outcome.ok)) := by
  constructor
  · intro ht
    simp [Sedna.goto, Sedna.call, hs, hstr, ht]
  · intro ht
    simp [Sedna.goto, Sedna.call, hs, hstr, ht]

theorem goto_nonstring_result_dispatch_witness :
    storyNonString.scenes "s" = some (JSValue.num 5)
    ∧ isString (JSValue.num 5) = false
    ∧ truthy (JSValue.num 5) = true
    ∧ Sedna.goto storyNonString 2 "s" =
        (Event.sceneInvoked "s" :: (Sedna.menu storyNonString 1 (JSValue.num 5)).1,
         (Sedna.menu storyNonString 1 (JSValue.num 5)).2)
    ∧ truthy (JSValue.bool false) = false
    ∧ Sedna.goto storyNonString 1 "z" = ([Event.sceneInvoked "z"], Outcome.ok) := by
  refine ⟨rfl, rfl, rfl, ?_, rfl, ?_⟩
  · exact (goto_nonstring_result_dispatch storyNonString "s" (JSValue.num 5) 1
      rfl rfl).1 rfl
  · exact (goto_nonstring_result_dispatch storyNonString "z" (JSValue.bool false) 0
      rfl rfl).2 rfl

/-- Nullish values are not strings, so the source's string test and its
`!= undefined` test cover disjoint cases. -/
lemma isString_false_of_isNullish (v : JSValue) (h : isNullish v = true) :
    isString v = false := by
  cases v <;> simp_all [isNullish, isString]

/-- Events produced by awaiting the reserved `options._` entry after the
renderer's menu resolution: the entry runs exactly when it is a function
(sedna.js lines 254-256). -/
def thenEvents (options : JSValue) : List Event :=
  if truthy (getProp options "_") && isFunction (getProp options "_") then
    [Event.fnCalled (fnTag (getProp options "_"))]
  else []

/-- C7: with the renderer's onMenu present, menu resolution interprets
the resolved value as the source does: a string resolution navigates to
that scene identifier; a present (non-nullish) non-string resolution
reports the InvalidMenuResult error via the error hook and performs no
navigation (the only event after the menu events is the single hook
call); a nullish resolution ends at rest with no error and no navigation
(no events after the menu events, outcome ok). -/
theorem menu_result_interpretation (story : Sedna) (fuel : Nat)
    (options : JSValue) (f : JSValue → JSValue)
    (hm : story.onMenu = some f) :
    (isString (f (deleteProp options "_")) = true →
      Sedna.menu story (fuel + 1) options =
        (Event.menuShown (objKeys (deleteProp options "_")) :: thenEvents options
            ++ (Sedna.goto story fuel (asString (f (deleteProp options "_")))).1,
         (Sedna.goto story fuel (asString (f (deleteProp options "_")))).2))
    ∧ (isString (f (deleteProp options "_")) = false →
       isNullish (f (deleteProp options "_")) = false →
      Sedna.menu story (fuel + 1) options =
        (Event.menuShown (objKeys (deleteProp options "_")) :: thenEvents options
            ++ [Event.errorCalled (invalidMenuMsg (f (deleteProp options "_")))],
         (Sedna.reportError story (invalidMenuMsg (f (deleteProp options "_")))).2))
    ∧ (isNullish (f (deleteProp options "_")) = true →
      Sedna.menu story (fuel + 1) options =
        (Event.menuShown (objKeys (deleteProp options "_")) :: thenEvents options,
         Outcome.ok)) := by
  refine ⟨?_, ?_, ?_⟩
  · intro h1
    simp [Sedna.menu, hm, thenEvents, h1]
  · intro h1 h2
    simp [Sedna.menu, Sedna.reportError, hm, thenEvents, h1, h2]
  · intro h1
    simp [Sedna.menu, hm, thenEvents, isString_false_of_isNullish _ h1, h1]

/-- Story whose renderer resolves every menu to the string "end" and
whose only scene, "end", resolves to nothing. -/
def storyMenuNav : Sedna :=
  Sedna.mk (fun id => if id = "end" then some JSValue.undef else none)
    (some (fun _ => JSValue.str "end")) true true ErrorHandler.default

theorem menu_result_interpretation_witness :
    storyMenuNav.onMenu = some (fun _ => JSValue.str "end")
    ∧ isString (JSValue.str "end") = true
    ∧ Sedna.menu storyMenuNav 2 (JSValue.obj [("Go", JSValue.str "end")]) =
        (Event.menuShown (objKeys (deleteProp
              (JSValue.obj [("Go", JSValue.str "end")]) "_"))
            :: thenEvents (JSValue.obj [("Go", JSValue.str "end")])
            ++ (Sedna.goto storyMenuNav 1 "end").1,
         (Sedna.goto storyMenuNav 1 "end").2) := by
  refine ⟨rfl, rfl, ?_⟩
  exact (menu_result_interpretation storyMenuNav 1
    (JSValue.obj [("Go", JSValue.str "end")]) (fun _ => JSValue.str "end") rfl).1 rfl

/-- C1: for a menu descriptor containing the reserved always-run entry
(key "_", a function), `menu` removes the reserved entry from the options
before showing them to the renderer's onMenu (the shown keys never
contain "_", and the renderer model is applied to the erased object), and
runs the reserved entry exactly once per resolution, after onMenu
resolves and before the resolved value is interpreted — before any
navigation on a string result and before any InvalidMenuResult error
report — regardless of which value the choice resolved to. -/
theorem menu_reserved_entry_runs_once (story : Sedna) (fuel : Nat)
    (options : JSValue) (f : JSValue → JSValue) (tag : Nat)
    (hm : story.onMenu = some f)
    (ht : getProp options "_" = JSValue.fn tag) :
    "_" ∉ objKeys (deleteProp options "_")
    ∧ Sedna.menu story (fuel + 1) options =
        (Event.menuShown (objKeys (deleteProp options "_")) ::
           Event.fnCalled tag ::
             (if isString (f (deleteProp options "_")) then
                (Sedna.goto story fuel (asString (f (deleteProp options "_")))).1
              else if ! isNullish (f (deleteProp options "_")) then
                [Event.errorCalled (invalidMenuMsg (f (deleteProp options "_")))]
              else []),
         if isString (f (deleteProp options "_")) then
           (Sedna.goto story fuel (asString (f (deleteProp options "_")))).2
         else if ! isNullish (f (deleteProp options "_")) then
           (Sedna.reportError story (invalidMenuMsg (f (deleteProp options "_")))).2
         else Outcome.ok) := by
  constructor
  · cases options <;> simp [getProp] at ht
    simp [objKeys, deleteProp, List.mem_map, List.mem_filter]
  · simp only [Sedna.menu, hm, ht, truthy, isFunction, fnTag, Bool.and_self,
      if_true]
    split
    · simp [Sedna.reportError]
    · split
      · simp [Sedna.reportError]
      · simp

/-- Menu descriptor with one visible option and a reserved entry. -/
def optionsWithReserved : JSValue :=
  JSValue.obj [("Go", JSValue.str "end"), ("_", JSValue.fn 7)]

theorem menu_reserved_entry_runs_once_witness :
    storyMenuNav.onMenu = some (fun _ => JSValue.str "end")
    ∧ getProp optionsWithReserved "_" = JSValue.fn 7
    ∧ "_" ∉ objKeys (deleteProp optionsWithReserved "_")
    ∧ Sedna.menu storyMenuNav 2 optionsWithReserved =
        (Event.menuShown (objKeys (deleteProp optionsWithReserved "_")) ::
           Event.fnCalled 7 ::
             (if isString (JSValue.str "end") then
                (Sedna.goto storyMenuNav 1 "end").1
              else if ! isNullish (JSValue.str "end") then
                [Event.errorCalled (invalidMenuMsg (JSValue.str "end"))]
              else []),
         if isString (JSValue.str "end") then
           (Sedna.goto storyMenuNav 1 "end").2
         else if ! isNullish (JSValue.str "end") then
           (Sedna.reportError storyMenuNav (invalidMenuMsg (JSValue.str "end"))).2
         else Outcome.ok) := by
  refine ⟨rfl, rfl, ?_, ?_⟩
  · exact (menu_reserved_entry_runs_once storyMenuNav 1 optionsWithReserved
      (fun _ => JSValue.str "end") 7 rfl rfl).1
  · exact (menu_reserved_entry_runs_once storyMenuNav 1 optionsWithReserved
      (fun _ => JSValue.str "end") 7 rfl rfl).2


/-- With the default error hook, any error-hook call in a navigation or
menu-resolution trace makes the whole run reject: proved for `goto` and
`menu` simultaneously by induction on the fuel. -/
lemma error_event_implies_thrown (story : Sedna)
    (hd : story.onError = ErrorHandler.default) :
    ∀ fuel : Nat,
      (∀ id msg, Event.errorCalled msg ∈ (Sedna.goto story fuel id).1 →
        ∃ m, (Sedna.goto story fuel id).2 = Outcome.thrown m)
      ∧ (∀ v msg, Event.errorCalled msg ∈ (Sedna.menu story fuel v).1 →
        ∃ m, (Sedna.menu story fuel v).2 = Outcome.thrown m) := by
  intro fuel
  induction fuel with
  | zero =>
    constructor
    · intro id msg hmem
      simp [Sedna.goto] at hmem
    · intro v msg hmem
      simp [Sedna.menu] at hmem
  | succ n ih =>
    constructor
    · intro id msg hmem
      cases hsc : story.scenes id with
      | none =>
        exact ⟨missingSceneMsg id, by simp [Sedna.goto, Sedna.reportError, hsc, hd]⟩
      | some v =>
        by_cases h1 : isString v = true
        · simp [Sedna.goto, Sedna.call, hsc, h1] at hmem ⊢
          exact ih.1 _ _ hmem
        · by_cases h2 : truthy v = true
          · simp only [Bool.not_eq_true] at h1
            simp [Sedna.goto, Sedna.call, hsc, h1, h2] at hmem ⊢
            exact ih.2 _ _ hmem
          · simp only [Bool.not_eq_true] at h1 h2
            simp [Sedna.goto, Sedna.call, hsc, h1, h2] at hmem
    · intro v msg hmem
      cases hm : story.onMenu with
      | none =>
        by_cases hc : (truthy (getProp v "_") && isFunction (getProp v "_")) = true
        · simp [Sedna.menu, hm, hc, isString, isNullish] at hmem
        · simp [Sedna.menu, hm, hc, isString, isNullish] at hmem
      | some f =>
        by_cases h1 : isString (f (deleteProp v "_")) = true
        · simp [Sedna.menu, hm, h1] at hmem ⊢
          exact ih.1 _ _ hmem
        · by_cases h2 : isNullish (f (deleteProp v "_")) = true
          · simp only [Bool.not_eq_true] at h1
            simp [Sedna.menu, hm, h1, h2] at hmem
          · simp only [Bool.not_eq_true] at h1 h2
            refine ⟨invalidMenuMsg (f (deleteProp v "_")), ?_⟩
            simp [Sedna.menu, Sedna.reportError, hm, h1, h2, hd]

/-- C8: a story constructed without an onError hook gets the default
escalating handler: every error-hook invocation records the call and
rejects with that error, and in full `goto`/`menu` runs no reported error
is ever swallowed by the engine — whenever an error-hook call appears in
the trace, the whole in-flight navigation or resolution chain unwinds
with a raised error. -/
theorem default_error_handler_escalates (story : Sedna)
    (h : story.onError = configOnError none) :
    (∀ msg, Sedna.reportError story msg =
        ([Event.errorCalled msg], Outcome.thrown msg))
    ∧ (∀ fuel id msg, Event.errorCalled msg ∈ (Sedna.goto story fuel id).1 →
        ∃ m, (Sedna.goto story fuel id).2 = Outcome.thrown m)
    ∧ (∀ fuel v msg, Event.errorCalled msg ∈ (Sedna.menu story fuel v).1 →
        ∃ m, (Sedna.menu story fuel v).2 = Outcome.thrown m) := by
  have hd : story.onError = ErrorHandler.default := by
    simpa [configOnError] using h
  refine ⟨?_, ?_, ?_⟩
  · intro msg
    simp [Sedna.reportError, hd]
  · intro fuel id msg hmem
    exact (error_event_implies_thrown story hd fuel).1 id msg hmem
  · intro fuel v msg hmem
    exact (error_event_implies_thrown story hd fuel).2 v msg hmem

theorem default_error_handler_escalates_witness :
    storyRest.onError = configOnError none
    ∧ Sedna.reportError storyRest "boom" =
        ([Event.errorCalled "boom"], Outcome.thrown "boom")
    ∧ Event.errorCalled (missingSceneMsg "x") ∈ (Sedna.goto storyRest 1 "x").1
    ∧ ∃ m, (Sedna.goto storyRest 1 "x").2 = Outcome.thrown m := by
  have hmem : Event.errorCalled (missingSceneMsg "x") ∈ (Sedna.goto storyRest 1 "x").1 := by
    have he : (Sedna.goto storyRest 1 "x").1 =
        [Event.errorCalled (missingSceneMsg "x")] := rfl
    rw [he]
    exact List.mem_singleton.mpr rfl
  have h := default_error_handler_escalates storyRest rfl
  exact ⟨rfl, h.1 "boom", hmem, h.2.1 1 "x" (missingSceneMsg "x") hmem⟩

/-- C3 counterexample: register "npc" with data mapping age 30, keep the
speaking handle, then re-register "npc" with data mapping age 99.  The
current registry entry's data is the age-99 mapping, but the handle
obtained before the replacement still reads the age-30 mapping — data
access through an old handle is captured at handle-creation time, not
late-bound through the registry. -/
theorem handle_not_late_bound_counterexample :
    ((Sedna.character (Sedna.character CharacterRegistry.empty "npc" "Stranger"
        [("age", JSValue.num 30)]).1 "npc" "Stranger" [("age", JSValue.num 99)]).1.characters "npc")
      = some (SednaCharacter.mk "npc" "Stranger" [("age", JSValue.num 99)])
    ∧ ((Sedna.character CharacterRegistry.empty "npc" "Stranger"
        [("age", JSValue.num 30)]).1.characterFunctions "npc")
      = some (SednaCharacter.asFunction (SednaCharacter.mk "npc" "Stranger"
          [("age", JSValue.num 30)]))
    ∧ (SednaCharacter.asFunction (SednaCharacter.mk "npc" "Stranger"
        [("age", JSValue.num 30)])).data = [("age", JSValue.num 30)]
    ∧ ([("age", JSValue.num 30)] : List (String × JSValue)) ≠ [("age", JSValue.num 99)] := by
  refine ⟨rfl, rfl, rfl, ?_⟩
  simp

/-- C3 amended: after re-registering a character identifier, a speaking
handle obtained before the replacement reflects the handle-creation-time
registry entry both for data access (its data mapping is the one given at
the original registration) and for the "say" action's attribution (the
character passed to the renderer is the one captured when the handle was
created); the replacement is visible only through the registry itself,
whose current entry carries the new data. -/
theorem handle_captures_registration_time_entry (r : CharacterRegistry)
    (id n1 n2 : String) (d1 d2 : List (String × JSValue)) (msg : String)
    (h : CharacterHandle)
    (hh : ((Sedna.character r id n1 d1).1).characterFunctions id = some h) :
    h.data = d1
    ∧ (h.say msg).1 = SednaCharacter.mk id n1 d1
    ∧ ((Sedna.character (Sedna.character r id n1 d1).1 id n2 d2).1.characters id)
        = some (SednaCharacter.mk id n2 d2) := by
  have hh2 : h = SednaCharacter.asFunction (SednaCharacter.mk id n1 d1) := by
    have h3 := hh
    simp [Sedna.character] at h3
    exact h3.symm
  subst hh2
  exact ⟨rfl, rfl, by simp [Sedna.character]⟩

theorem handle_captures_registration_time_entry_witness :
    ((Sedna.character CharacterRegistry.empty "npc" "Stranger"
        [("age", JSValue.num 30)]).1.characterFunctions "npc")
      = some (SednaCharacter.asFunction (SednaCharacter.mk "npc" "Stranger"
          [("age", JSValue.num 30)]))
    ∧ (SednaCharacter.asFunction (SednaCharacter.mk "npc" "Stranger"
        [("age", JSValue.num 30)])).data = [("age", JSValue.num 30)]
    ∧ ((SednaCharacter.asFunction (SednaCharacter.mk "npc" "Stranger"
        [("age", JSValue.num 30)])).say "hi").1
        = SednaCharacter.mk "npc" "Stranger" [("age", JSValue.num 30)]
    ∧ ((Sedna.character (Sedna.character CharacterRegistry.empty "npc" "Stranger"
        [("age", JSValue.num 30)]).1 "npc" "Hero" [("age", JSValue.num 99)]).1.characters "npc")
        = some (SednaCharacter.mk "npc" "Hero" [("age", JSValue.num 99)]) := by
  have h := handle_captures_registration_time_entry CharacterRegistry.empty
    "npc" "Stranger" "Hero" [("age", JSValue.num 30)] [("age", JSValue.num 99)] "hi"
    (SednaCharacter.asFunction (SednaCharacter.mk "npc" "Stranger"
      [("age", JSValue.num 30)])) rfl
  exact ⟨rfl, h.1, h.2.1, h.2.2⟩
